import Mathlib

/-!
Verification of the ProofStack legal-standards compliance engine.

This file gives a shallow embedding of the rule catalog and the compliance
evaluator of `legalStandards.ts` (the `LegalStandardsEngine` class) together
with the best-evidence analyzer of `evidenceAnalyzer.ts`, and proves/refutes
the specification's claims about them.

Modelling conventions:
* JavaScript numbers are modelled as `Int` where the source only ever holds
  integers (all engine scores), and as `ℚ` for the caller-supplied
  `relevanceScore` and the rounding arithmetic (`Math.round(x) = ⌊x + 1/2⌋`,
  `0.8 = 8/10` exactly; the claims are stated "within rounding", so the
  embedding uses exact rational arithmetic).
* The dynamically-typed evidence metadata bag is a record of optional fields;
  JavaScript truthiness is modelled explicitly (`undefined`/`''`/`false`/`0`
  are falsy).
* `throw new Error(...)` is modelled with `Except String`.
* The per-rule evaluators of `LegalStandardsEngine` push plain strings into
  the findings array while the `default` branch pushes a `Finding` object;
  `FindingEntry` is the sum of the two shapes.
-/

namespace ProofStack

/-! ## Data model (`legalStandards.ts` interfaces) -/

structure ScoringFactor where
  factor : String
  description : String
  maxPoints : Int
  evaluationCriteria : List String
deriving Repr, DecidableEq

structure AnalysisCriteria where
  ruleId : String
  weight : Int
  requiredElements : List String
  scoringFactors : List ScoringFactor
deriving Repr, DecidableEq

/-- Catalog entry.  The `description`, `requirements`, `exceptions` and
`relatedRules` fields of the source interface are display-only text that no
embedded operation ever reads; they are elided here. -/
structure LegalRule where
  id : String
  title : String
  jurisdiction : String
  ruleNumber : String
  category : String
  citation : String
deriving Repr, DecidableEq

structure Finding where
  type : String
  description : String
  impact : String
  ruleReference : String
deriving Repr, DecidableEq

/-- The engine's per-rule evaluators push plain strings into the `findings`
array, while the `default` switch branch pushes a `Finding` object; both are
admitted by the dynamic typing of the source. -/
inductive FindingEntry where
  | text (s : String)
  | typed (f : Finding)
deriving Repr, DecidableEq

structure ComplianceResult where
  ruleId : String
  compliant : Bool
  score : Int
  maxScore : Int
  findings : List FindingEntry
  recommendations : List String
deriving Repr, DecidableEq

/-! ## Evidence records

The engine receives an `any`-typed evidence value and only ever reads
`evidence.metadata?.<field>`; each field it reads is one optional slot. -/

structure CustodyEntry where
  handler : String := ""
  timestamp : String := ""
  action : String := ""
deriving Repr, DecidableEq

structure Metadata where
  digitalSignature : Option String := none
  chainOfCustody : Option (List CustodyEntry) := none
  documentType : Option String := none
  isOriginal : Option Bool := none
  copyJustification : Option String := none
  regularCourse : Option Bool := none
  recordKeeper : Option Bool := none
  isHearsay : Option Bool := none
  hearsayException : Option String := none
  relevanceScore : Option ℚ := none
  prejudicialRisk : Option String := none
deriving Repr, DecidableEq

structure Evidence where
  type : String := ""
  metadata : Metadata := {}
deriving Repr, DecidableEq

/-- JavaScript truthiness of an optional string (`undefined` and `''` falsy). -/
def optStrTruthy : Option String → Bool
  | none => false
  | some s => s ≠ ""

/-- JavaScript truthiness of an optional boolean (`undefined` falsy). -/
def optBoolTruthy : Option Bool → Bool
  | none => false
  | some b => b

/-- `xs?.length` with `undefined > 0` being false: length of an optional list. -/
def chainLen : Option (List CustodyEntry) → Nat
  | none => 0
  | some l => l.length

/-- `x || d` on an optional number: `undefined` and `0` are falsy. -/
def jsOr (x : Option ℚ) (d : ℚ) : ℚ :=
  match x with
  | none => d
  | some v => if v = 0 then d else v

/-- `Math.round`: round half toward positive infinity. -/
def jsRound (x : ℚ) : Int := ⌊x + 1/2⌋

/-! ## Rule catalog (`FEDERAL_RULES`, `INDIANA_RULES`, `ANALYSIS_CRITERIA`) -/

def FEDERAL_RULES : List LegalRule :=
  [ { id := "fre-901", title := "Authenticating or Identifying Evidence",
      jurisdiction := "Federal", ruleNumber := "FRE 901",
      category := "Authentication", citation := "Fed. R. Evid. 901" },
    { id := "fre-902", title := "Evidence That Is Self-Authenticating",
      jurisdiction := "Federal", ruleNumber := "FRE 902",
      category := "Authentication", citation := "Fed. R. Evid. 902" },
    { id := "fre-1001", title := "Definitions (Best Evidence Rule)",
      jurisdiction := "Federal", ruleNumber := "FRE 1001-1008",
      category := "BestEvidence", citation := "Fed. R. Evid. 1001-1008" },
    { id := "fre-401", title := "Test for Relevant Evidence",
      jurisdiction := "Federal", ruleNumber := "FRE 401",
      category := "Relevance", citation := "Fed. R. Evid. 401" },
    { id := "fre-403",
      title := "Excluding Relevant Evidence for Prejudice, Confusion, or Other Reasons",
      jurisdiction := "Federal", ruleNumber := "FRE 403",
      category := "Relevance", citation := "Fed. R. Evid. 403" },
    { id := "fre-803", title := "Exceptions to the Rule Against Hearsay",
      jurisdiction := "Federal", ruleNumber := "FRE 803",
      category := "Hearsay", citation := "Fed. R. Evid. 803" } ]

def INDIANA_RULES : List LegalRule :=
  [ { id := "ire-901", title := "Authentication and Identification",
      jurisdiction := "Indiana", ruleNumber := "IRE 901",
      category := "Authentication", citation := "Ind. R. Evid. 901" } ]

def crit901 : AnalysisCriteria :=
  { ruleId := "fre-901", weight := 9,
    requiredElements :=
      [ "Chain of custody documentation", "Witness testimony or affidavit",
        "Technical documentation of collection process",
        "Metadata preservation evidence" ],
    scoringFactors :=
      [ { factor := "Chain of Custody",
          description :=
            "Complete documentation of evidence handling from collection to presentation",
          maxPoints := 25,
          evaluationCriteria :=
            [ "Unbroken chain documented", "All handlers identified",
              "Transfer procedures followed", "Storage conditions documented",
              "Access controls maintained" ] },
        { factor := "Technical Authentication",
          description := "Technical methods used to verify evidence integrity",
          maxPoints := 20,
          evaluationCriteria :=
            [ "Hash values calculated and verified", "Digital signatures present",
              "Timestamps verified", "Metadata preserved",
              "Collection tools documented" ] },
        { factor := "Witness Testimony",
          description := "Competent witness testimony supporting authenticity",
          maxPoints := 15,
          evaluationCriteria :=
            [ "Witness has personal knowledge", "Witness is competent",
              "Testimony is detailed and specific",
              "Witness available for cross-examination" ] } ] }

def crit902 : AnalysisCriteria :=
  { ruleId := "fre-902", weight := 8,
    requiredElements := [ "Document type classification", "Authority verification" ],
    scoringFactors :=
      [ { factor := "Self-Authentication",
          description := "Evidence qualifies for self-authentication under FRE 902",
          maxPoints := 30,
          evaluationCriteria :=
            [ "Public record status verified", "Issuing authority identified",
              "Official seal or certification present",
              "Proper format and appearance" ] } ] }

def crit1001 : AnalysisCriteria :=
  { ruleId := "fre-1001", weight := 7,
    requiredElements := [ "Original vs copy determination", "Justification for copies" ],
    scoringFactors :=
      [ { factor := "Best Evidence",
          description := "Original document or acceptable copy provided",
          maxPoints := 25,
          evaluationCriteria :=
            [ "Original document provided", "Copy justified by circumstances",
              "Original unavailability explained", "Copy accuracy verified" ] } ] }

def crit803 : AnalysisCriteria :=
  { ruleId := "fre-803", weight := 8,
    requiredElements := [ "Hearsay analysis", "Exception qualification" ],
    scoringFactors :=
      [ { factor := "Hearsay Exception",
          description := "Evidence qualifies for hearsay exception",
          maxPoints := 30,
          evaluationCriteria :=
            [ "Business record requirements met",
              "Regular course of business established", "Record keeper identified",
              "Contemporaneous creation verified" ] } ] }

def crit401 : AnalysisCriteria :=
  { ruleId := "fre-401", weight := 9,
    requiredElements := [ "Relevance determination", "Probative value assessment" ],
    scoringFactors :=
      [ { factor := "Relevance",
          description := "Evidence is relevant to case issues",
          maxPoints := 25,
          evaluationCriteria :=
            [ "Logical connection to case facts", "Tendency to prove material fact",
              "Probative value identified", "Clear relevance articulated" ] } ] }

def crit403 : AnalysisCriteria :=
  { ruleId := "fre-403", weight := 8,
    requiredElements := [ "Prejudice assessment", "Probative value balancing" ],
    scoringFactors :=
      [ { factor := "Prejudice Balance",
          description := "Probative value outweighs prejudicial effect",
          maxPoints := 25,
          evaluationCriteria :=
            [ "Prejudicial risk assessed", "Probative value quantified",
              "Alternative evidence considered", "Limiting instructions available" ] } ] }

def ANALYSIS_CRITERIA : List AnalysisCriteria :=
  [crit901, crit902, crit1001, crit803, crit401, crit403]

/-- The constructor loads `[...FEDERAL_RULES, ...INDIANA_RULES]` into a map
keyed by `rule.id`; since ids are unique, `Map.get` is first-match lookup. -/
def getRuleById (ruleId : String) : Option LegalRule :=
  (FEDERAL_RULES ++ INDIANA_RULES).find? (fun r => r.id == ruleId)

def getCriteriaForRule (ruleId : String) : Option AnalysisCriteria :=
  ANALYSIS_CRITERIA.find? (fun c => c.ruleId == ruleId)

/-! ## Rule-id normalization (`normalizeRuleId`) -/

def startsWithList : List Char → List Char → Bool
  | [], _ => true
  | _ :: _, [] => false
  | p :: ps, c :: cs => p == c && startsWithList ps cs

/-- `String.prototype.replace` with a string pattern replaces only the first
occurrence. -/
def replaceFirstAux (pat rep : List Char) : List Char → List Char
  | [] => []
  | c :: cs =>
      if startsWithList pat (c :: cs) then rep ++ (c :: cs).drop pat.length
      else c :: replaceFirstAux pat rep cs

def replaceFirst (s pat rep : String) : String :=
  String.mk (replaceFirstAux pat.data rep.data s.data)

/-- `ruleId.toLowerCase().replace(/_/g, '-').replace('fre-1002', 'fre-1001').replace('fre-803-6', 'fre-803')` -/
def normalizeRuleId (ruleId : String) : String :=
  let lowered := String.mk (ruleId.data.map Char.toLower)
  let hyphened := String.mk (lowered.data.map (fun c => if c = '_' then '-' else c))
  replaceFirst (replaceFirst hyphened "fre-1002" "fre-1001") "fre-803-6" "fre-803"

/-! ## Per-rule evaluators

Each evaluator mutates a findings and a recommendations array and returns the
score; the embedding returns the triple
`(score, findings pushed, recommendations pushed)` in push order. -/

def evaluateFRE901 (evidence : Evidence) : Int × List FindingEntry × List String :=
  -- let score = 55 (increased base score), then two independent bonuses
  let p1 :=
    if optStrTruthy evidence.metadata.digitalSignature then
      ((25 : Int), [FindingEntry.text "Digital signature present for authentication"],
        ([] : List String))
    else
      ((0 : Int), [FindingEntry.text "Missing digital authentication"],
        ["Obtain digital signature or other authentication method"])
  let p2 :=
    if 0 < chainLen evidence.metadata.chainOfCustody then
      ((20 : Int), [FindingEntry.text "Chain of custody documented"], ([] : List String))
    else
      ((0 : Int), [FindingEntry.text "Chain of custody missing or incomplete"],
        ["Document complete chain of custody"])
  (55 + p1.1 + p2.1, p1.2.1 ++ p2.2.1, p1.2.2 ++ p2.2.2)

def evaluateFRE902 (evidence : Evidence) : Int × List FindingEntry × List String :=
  let score : Int := 45
  if evidence.metadata.documentType = some "public_record" then
    (score + 45,
      [FindingEntry.text "Document qualifies as self-authenticating public record"], [])
  else
    (score, [FindingEntry.text "Document requires additional authentication"],
      ["Provide authentication witness or certification"])

def evaluateFRE1002 (evidence : Evidence) : Int × List FindingEntry × List String :=
  let score : Int := 35
  if optBoolTruthy evidence.metadata.isOriginal then
    (score + 60, [FindingEntry.text "Original document provided"], [])
  else if optStrTruthy evidence.metadata.copyJustification then
    (score + 45, [FindingEntry.text "Copy provided with proper justification"], [])
  else
    (score, [FindingEntry.text "Copy provided without justification for original absence"],
      ["Provide justification for using copy instead of original"])

def evaluateFRE803_6 (evidence : Evidence) : Int × List FindingEntry × List String :=
  let score : Int := 35
  if optBoolTruthy evidence.metadata.regularCourse &&
      optBoolTruthy evidence.metadata.recordKeeper then
    (score + 50, [FindingEntry.text "Qualifies as business record exception to hearsay"], [])
  else if optBoolTruthy evidence.metadata.isHearsay &&
      !(optStrTruthy evidence.metadata.hearsayException) then
    -- `score = 20`: the hearsay branch resets the score, it does not decrement
    ((20 : Int), [FindingEntry.text "Hearsay evidence without applicable exception"],
      ["Establish hearsay exception or find non-hearsay alternative"])
  else
    (score, [], [])

def evaluateFRE401 (evidence : Evidence) : Int × List FindingEntry × List String :=
  let relevanceScore : ℚ := jsOr evidence.metadata.relevanceScore 50
  let score : Int := 45 + jsRound (relevanceScore * (8/10))
  if relevanceScore ≥ 80 then
    (score, [FindingEntry.text "Evidence highly relevant to case"], [])
  else if relevanceScore ≥ 60 then
    (score, [FindingEntry.text "Evidence moderately relevant"], [])
  else
    (score, [FindingEntry.text "Evidence relevance questionable"],
      ["Strengthen connection between evidence and case issues"])

def evaluateFRE403 (evidence : Evidence) : Int × List FindingEntry × List String :=
  let score : Int := 70
  if evidence.metadata.prejudicialRisk = some "high" then
    (score - 30, [FindingEntry.text "High risk of unfair prejudice"],
      ["Consider limiting instruction or alternative evidence"])
  else if evidence.metadata.prejudicialRisk = some "medium" then
    (score - 15, [FindingEntry.text "Moderate prejudicial risk"], [])
  else
    (score, [], [])

/-! ## `evaluateRule` and the aggregate operations -/

/-- The `switch (normalizedRuleId)` dispatch of `evaluateRule`; the original
`ruleId` is only used by the `default` branch's `Finding`. -/
def ruleDispatch (normalizedRuleId ruleId : String) (evidence : Evidence) :
    Int × List FindingEntry × List String :=
  if normalizedRuleId = "fre-901" then evaluateFRE901 evidence
  else if normalizedRuleId = "fre-902" then evaluateFRE902 evidence
  else if normalizedRuleId = "fre-1001" then evaluateFRE1002 evidence
  else if normalizedRuleId = "fre-803" then evaluateFRE803_6 evidence
  else if normalizedRuleId = "fre-401" then evaluateFRE401 evidence
  else if normalizedRuleId = "fre-403" then evaluateFRE403 evidence
  else
    ((50 : Int),
      [FindingEntry.typed
        { type := "concern", description := "Rule evaluation not fully implemented",
          impact := "medium", ruleReference := ruleId }],
      [])

/-- The result object literal of `evaluateRule`: `compliant` is decided on the
raw score, the returned `score` is clamped to `maxScore`, and `ruleId` echoes
the caller's original (un-normalized) argument. -/
def mkComplianceResult (ruleId : String) (t : Int × List FindingEntry × List String)
    (maxScore : Int) : ComplianceResult :=
  { ruleId := ruleId
    compliant := decide (70 ≤ t.1)
    score := min t.1 maxScore
    maxScore := maxScore
    findings := t.2.1
    recommendations := t.2.2 }

def evaluateRule (ruleId : String) (evidence : Evidence) :
    Except String ComplianceResult :=
  let normalizedRuleId := normalizeRuleId ruleId
  match getRuleById normalizedRuleId, getCriteriaForRule normalizedRuleId with
  | some _, some criteria =>
      let maxScore := (criteria.scoringFactors.map ScoringFactor.maxPoints).sum
      let t := ruleDispatch normalizedRuleId ruleId evidence
      Except.ok (mkComplianceResult ruleId t maxScore)
  | _, _ => Except.error ("Unknown rule: " ++ ruleId)

def applicableRules : List String :=
  ["fre-901", "fre-902", "fre-1001", "fre-803", "fre-401", "fre-403"]

def analyzeEvidence (evidence : Evidence) : Except String (List ComplianceResult) :=
  applicableRules.mapM (fun ruleId => evaluateRule ruleId evidence)

def calculateOverallCompliance (evidence : Evidence) : Except String Int :=
  match analyzeEvidence evidence with
  | Except.error e => Except.error e
  | Except.ok results =>
      let totalScore := (results.map ComplianceResult.score).sum
      let maxPossibleScore := (results.map ComplianceResult.maxScore).sum
      Except.ok
        (if 0 < maxPossibleScore then
          jsRound ((totalScore : ℚ) / (maxPossibleScore : ℚ) * 100)
        else 0)

/-! ## `EvidenceAnalyzer.analyzeBestEvidenceRule` (`evidenceAnalyzer.ts`) -/

/-- Subject record of the `EvidenceAnalyzer`; only the fields read by the
embedded analyzer are populated. -/
structure EvidenceItem where
  id : String := ""
  name : String := ""
  type : String := ""
  description : String := ""
  isOriginal : Bool := false
  jurisdiction : String := "Federal"
deriving Repr, DecidableEq

def analyzeBestEvidenceRule (evidence : EvidenceItem) : ComplianceResult :=
  let maxScore : Int := 100
  let t :=
    if evidence.isOriginal then
      ((100 : Int),
        [FindingEntry.typed
          { type := "strength", description := "Original evidence presented",
            impact := "high", ruleReference := "FRE 1002" }],
        ([] : List String))
    else
      ((60 : Int),
        [FindingEntry.typed
          { type := "concern",
            description :=
              "Copy of evidence presented - original required unless exception applies",
            impact := "medium", ruleReference := "FRE 1002" }],
        ["Document reason why original is not available or provide original if possible"])
  { ruleId := "fre-1001"
    compliant := decide (60 ≤ t.1)
    score := t.1
    maxScore := maxScore
    findings := t.2.1
    recommendations := t.2.2 }

/-! ## Shared lemmas about the engine -/

theorem getCriteriaForRule_none_of {n : String}
    (h1 : n ≠ "fre-901") (h2 : n ≠ "fre-902") (h3 : n ≠ "fre-1001")
    (h4 : n ≠ "fre-803") (h5 : n ≠ "fre-401") (h6 : n ≠ "fre-403") :
    getCriteriaForRule n = none := by
  have g1 : ¬("fre-901" = n) := fun e => h1 e.symm
  have g2 : ¬("fre-902" = n) := fun e => h2 e.symm
  have g3 : ¬("fre-1001" = n) := fun e => h3 e.symm
  have g4 : ¬("fre-803" = n) := fun e => h4 e.symm
  have g5 : ¬("fre-401" = n) := fun e => h5 e.symm
  have g6 : ¬("fre-403" = n) := fun e => h6 e.symm
  have b1 : ("fre-901" == n) = false := beq_eq_false_iff_ne.mpr g1
  have b2 : ("fre-902" == n) = false := beq_eq_false_iff_ne.mpr g2
  have b3 : ("fre-1001" == n) = false := beq_eq_false_iff_ne.mpr g3
  have b4 : ("fre-803" == n) = false := beq_eq_false_iff_ne.mpr g4
  have b5 : ("fre-401" == n) = false := beq_eq_false_iff_ne.mpr g5
  have b6 : ("fre-403" == n) = false := beq_eq_false_iff_ne.mpr g6
  simp [getCriteriaForRule, ANALYSIS_CRITERIA, List.find?, crit901, crit902,
    crit1001, crit803, crit401, crit403, b1, b2, b3, b4, b5, b6]

/-- Evaluation of `evaluateRule` by cases on the normalized rule id: the six
catalog ids dispatch to their evaluator with that rule's `maxScore`
(sum of its scoring-factor max points); everything else fails. -/
theorem evaluateRule_shape (ruleId : String) (ev : Evidence) :
    evaluateRule ruleId ev =
      (if normalizeRuleId ruleId = "fre-901" then
        Except.ok (mkComplianceResult ruleId (evaluateFRE901 ev) 60)
      else if normalizeRuleId ruleId = "fre-902" then
        Except.ok (mkComplianceResult ruleId (evaluateFRE902 ev) 30)
      else if normalizeRuleId ruleId = "fre-1001" then
        Except.ok (mkComplianceResult ruleId (evaluateFRE1002 ev) 25)
      else if normalizeRuleId ruleId = "fre-803" then
        Except.ok (mkComplianceResult ruleId (evaluateFRE803_6 ev) 30)
      else if normalizeRuleId ruleId = "fre-401" then
        Except.ok (mkComplianceResult ruleId (evaluateFRE401 ev) 25)
      else if normalizeRuleId ruleId = "fre-403" then
        Except.ok (mkComplianceResult ruleId (evaluateFRE403 ev) 25)
      else Except.error ("Unknown rule: " ++ ruleId)) := by
  by_cases h1 : normalizeRuleId ruleId = "fre-901"
  · simp only [evaluateRule, h1]; rfl
  by_cases h2 : normalizeRuleId ruleId = "fre-902"
  · simp only [evaluateRule, h2]; simp [h1]; rfl
  by_cases h3 : normalizeRuleId ruleId = "fre-1001"
  · simp only [evaluateRule, h3]; simp [h1, h2]; rfl
  by_cases h4 : normalizeRuleId ruleId = "fre-803"
  · simp only [evaluateRule, h4]; simp [h1, h2, h3]; rfl
  by_cases h5 : normalizeRuleId ruleId = "fre-401"
  · simp only [evaluateRule, h5]; simp [h1, h2, h3, h4]; rfl
  by_cases h6 : normalizeRuleId ruleId = "fre-403"
  · simp only [evaluateRule, h6]; simp [h1, h2, h3, h4, h5]; rfl
  · have hc : getCriteriaForRule (normalizeRuleId ruleId) = none :=
      getCriteriaForRule_none_of h1 h2 h3 h4 h5 h6
    simp only [evaluateRule, hc, h1, h2, h3, h4, h5, h6]
    rcases hr : getRuleById (normalizeRuleId ruleId) with _ | r <;> simp

/-- Characterization of `jsRound` used to evaluate it on concrete rationals
(rational arithmetic does not reduce definitionally). -/
theorem jsRound_eq {x : ℚ} {n : ℤ} (h1 : (n : ℚ) ≤ x + 1/2) (h2 : x + 1/2 < n + 1) :
    jsRound x = n := by
  unfold jsRound
  exact Int.floor_eq_iff.mpr ⟨h1, h2⟩

theorem raw901_bounds (ev : Evidence) :
    55 ≤ (evaluateFRE901 ev).1 ∧ (evaluateFRE901 ev).1 ≤ 100 := by
  simp only [evaluateFRE901]
  split_ifs <;> simp

theorem raw902_bounds (ev : Evidence) :
    45 ≤ (evaluateFRE902 ev).1 ∧ (evaluateFRE902 ev).1 ≤ 90 := by
  simp only [evaluateFRE902]
  split_ifs <;> simp

theorem raw1002_bounds (ev : Evidence) :
    35 ≤ (evaluateFRE1002 ev).1 ∧ (evaluateFRE1002 ev).1 ≤ 95 := by
  simp only [evaluateFRE1002]
  split_ifs <;> simp

theorem raw803_bounds (ev : Evidence) :
    20 ≤ (evaluateFRE803_6 ev).1 ∧ (evaluateFRE803_6 ev).1 ≤ 85 := by
  simp only [evaluateFRE803_6]
  split_ifs <;> simp

theorem raw403_bounds (ev : Evidence) :
    40 ≤ (evaluateFRE403 ev).1 ∧ (evaluateFRE403 ev).1 ≤ 70 := by
  simp only [evaluateFRE403]
  split_ifs <;> simp

/-- The FRE 401 raw score is nonnegative as long as the caller does not
supply a negative `relevanceScore` (absent and `0` both default to `50`). -/
theorem raw401_nonneg (ev : Evidence)
    (h : ∀ v, ev.metadata.relevanceScore = some v → 0 ≤ v) :
    0 ≤ (evaluateFRE401 ev).1 := by
  have hr : 0 ≤ jsOr ev.metadata.relevanceScore 50 := by
    rcases hv : ev.metadata.relevanceScore with _ | v
    · simp [jsOr]
    · have := h v hv
      simp only [jsOr]
      split_ifs <;> [norm_num; exact this]
  have hprod : (0 : ℚ) ≤ jsOr ev.metadata.relevanceScore 50 * (8/10) := by positivity
  have hround : 0 ≤ jsRound (jsOr ev.metadata.relevanceScore 50 * (8/10)) := by
    have : (0 : ℚ) ≤ jsOr ev.metadata.relevanceScore 50 * (8/10) + 1/2 := by linarith
    exact Int.floor_nonneg.mpr this
  simp only [evaluateFRE401]
  split_ifs <;> omega

/-- The six results of `analyzeEvidence`, in the order of `applicableRules`. -/
def sixResults (ev : Evidence) : List ComplianceResult :=
  [ mkComplianceResult "fre-901" (evaluateFRE901 ev) 60,
    mkComplianceResult "fre-902" (evaluateFRE902 ev) 30,
    mkComplianceResult "fre-1001" (evaluateFRE1002 ev) 25,
    mkComplianceResult "fre-803" (evaluateFRE803_6 ev) 30,
    mkComplianceResult "fre-401" (evaluateFRE401 ev) 25,
    mkComplianceResult "fre-403" (evaluateFRE403 ev) 25 ]

theorem analyzeEvidence_eq (ev : Evidence) :
    analyzeEvidence ev = Except.ok (sixResults ev) := rfl

/-! ## Concrete evidence records and results used by the claims -/

def evEmpty : Evidence := {}

/-- `evaluateRule "fre-901" evEmpty`. -/
def resFRE901Empty : ComplianceResult :=
  { ruleId := "fre-901", compliant := false, score := 55, maxScore := 60,
    findings := [FindingEntry.text "Missing digital authentication",
                 FindingEntry.text "Chain of custody missing or incomplete"],
    recommendations := ["Obtain digital signature or other authentication method",
                        "Document complete chain of custody"] }

/-- The spec's FRE 901 example scenario (digital signature plus a one-entry
chain of custody). -/
def evC4 : Evidence :=
  { type := "digital",
    metadata :=
      { digitalSignature := some "sig",
        chainOfCustody :=
          some [{ handler := "Officer Smith", timestamp := "T", action := "collected" }] } }

/-- Hearsay without exception, but also tagged as a business record. -/
def evHearsayBiz : Evidence :=
  { metadata :=
      { regularCourse := some true, recordKeeper := some true,
        isHearsay := some true, hearsayException := none } }

/-- A caller-supplied out-of-range relevance score. -/
def evRelNeg : Evidence := { metadata := { relevanceScore := some (-100) } }

/-- A large negative caller-supplied relevance score. -/
def evRelNegBig : Evidence := { metadata := { relevanceScore := some (-10000) } }

/-- An original document. -/
def evOriginal : Evidence := { metadata := { isOriginal := some true } }

/-- Hearsay without exception and without business-record tagging. -/
def evHearsayOnly : Evidence := { metadata := { isHearsay := some true } }

/-- `evaluateRule "fre-803" evHearsayBiz`. -/
def resFRE803Biz : ComplianceResult :=
  { ruleId := "fre-803", compliant := true, score := 30, maxScore := 30,
    findings := [FindingEntry.text "Qualifies as business record exception to hearsay"],
    recommendations := [] }

/-- `evaluateRule "fre-803" evEmpty`. -/
def resFRE803Empty : ComplianceResult :=
  { ruleId := "fre-803", compliant := false, score := 30, maxScore := 30,
    findings := [], recommendations := [] }

/-- `evaluateRule "fre-803" evHearsayOnly`. -/
def resFRE803Hearsay : ComplianceResult :=
  { ruleId := "fre-803", compliant := false, score := 20, maxScore := 30,
    findings := [FindingEntry.text "Hearsay evidence without applicable exception"],
    recommendations := ["Establish hearsay exception or find non-hearsay alternative"] }

/-- `evaluateRule "fre-401" evRelNeg`. -/
def resFRE401Neg : ComplianceResult :=
  { ruleId := "fre-401", compliant := false, score := -35, maxScore := 25,
    findings := [FindingEntry.text "Evidence relevance questionable"],
    recommendations := ["Strengthen connection between evidence and case issues"] }

/-- `evaluateRule "fre-901" evC4`. -/
def resFRE901C4 : ComplianceResult :=
  { ruleId := "fre-901", compliant := true, score := 60, maxScore := 60,
    findings := [FindingEntry.text "Digital signature present for authentication",
                 FindingEntry.text "Chain of custody documented"],
    recommendations := [] }

/-- `evaluateRule "fre-1001" evOriginal`. -/
def resFRE1001Orig : ComplianceResult :=
  { ruleId := "fre-1001", compliant := true, score := 25, maxScore := 25,
    findings := [FindingEntry.text "Original document provided"],
    recommendations := [] }

/-- `evaluateRule "fre-1001" evEmpty`. -/
def resFRE1001Empty : ComplianceResult :=
  { ruleId := "fre-1001", compliant := false, score := 25, maxScore := 25,
    findings := [FindingEntry.text "Copy provided without justification for original absence"],
    recommendations := ["Provide justification for using copy instead of original"] }

/-- `evaluateRule "FRE_901" evEmpty`: identical to `resFRE901Empty` except for
the echoed `ruleId`. -/
def resFRE901EmptyAlias : ComplianceResult := { resFRE901Empty with ruleId := "FRE_901" }

/-- The `maxScore` a given (normalized) rule id gets from the catalog: the sum
of its scoring-factor max points, `0` for ids with no criteria. -/
def criteriaMaxSum (n : String) : Int :=
  match getCriteriaForRule n with
  | none => 0
  | some c => (c.scoringFactors.map ScoringFactor.maxPoints).sum

/-! ## Claim C1 — compliance threshold -/

/-- C1 counterexample: the claim says `compliant` is true iff
`score / maxScore ≥ 0.70` for every rule evaluator.  It is false:
`evaluateRule "fre-901"` on empty evidence returns `score = 55`,
`maxScore = 60`, a ratio of about 0.92 ≥ 0.70, yet `compliant = false`,
because the engine compares the raw score against an absolute 70. -/
theorem claim_C1_counterexample :
    evaluateRule "fre-901" evEmpty = Except.ok resFRE901Empty ∧
    (resFRE901Empty.score : ℚ) / (resFRE901Empty.maxScore : ℚ) ≥ 70/100 ∧
    resFRE901Empty.compliant = false :=
  ⟨rfl, by norm_num [resFRE901Empty], rfl⟩

/-- C1 amended: `compliant` is an absolute-score test, not a percentage of
`maxScore`, and it is not uniform across evaluators: `evaluateRule` sets
`compliant` iff the raw (pre-clamp) dispatch score is at least 70 points
regardless of the rule's `maxScore`, while
`EvidenceAnalyzer.analyzeBestEvidenceRule` uses a 60-point threshold on
`maxScore = 100` — a per-rule override. -/
theorem claim_C1_amended :
    (∀ (ruleId : String) (ev : Evidence) (r : ComplianceResult),
        evaluateRule ruleId ev = Except.ok r →
        (r.compliant = true ↔ 70 ≤ (ruleDispatch (normalizeRuleId ruleId) ruleId ev).1)) ∧
    (∀ item : EvidenceItem,
        (analyzeBestEvidenceRule item).compliant = true ↔
          60 ≤ (analyzeBestEvidenceRule item).score) := by
  constructor
  · intro ruleId ev r h
    rw [evaluateRule_shape] at h
    split_ifs at h with h1 h2 h3 h4 h5 h6 <;>
      simp only [Except.ok.injEq] at h
    · subst h; simp [mkComplianceResult, ruleDispatch, h1]
    · subst h; simp [mkComplianceResult, ruleDispatch, h1, h2]
    · subst h; simp [mkComplianceResult, ruleDispatch, h1, h2, h3]
    · subst h; simp [mkComplianceResult, ruleDispatch, h1, h2, h3, h4]
    · subst h; simp [mkComplianceResult, ruleDispatch, h1, h2, h3, h4, h5]
    · subst h; simp [mkComplianceResult, ruleDispatch, h1, h2, h3, h4, h5, h6]
  · intro item
    cases hi : item.isOriginal <;> simp [analyzeBestEvidenceRule, hi]

/-- C1 witness: the amended theorem applied to `fre-901` on empty evidence. -/
theorem claim_C1_witness :
    evaluateRule "fre-901" evEmpty = Except.ok resFRE901Empty ∧
    (resFRE901Empty.compliant = true ↔
      70 ≤ (ruleDispatch (normalizeRuleId "fre-901") "fre-901" evEmpty).1) :=
  ⟨rfl, claim_C1_amended.1 "fre-901" evEmpty resFRE901Empty rfl⟩

/-! ## Claim C2 — FRE 803 override priority -/

/-- C2 counterexample: the claim says a record with `isHearsay = true` and no
exception scores strictly lower than the plain baseline even when it is also
tagged `regularCourse && recordKeeper`.  In the code the business-record
branch is tested first, so such a record gets the raw score 85 (clamped to
30) versus the baseline raw 35 (clamped to 30): the returned scores are
equal, and the raw score is strictly higher, not lower. -/
theorem claim_C2_counterexample :
    evaluateRule "fre-803" evHearsayBiz = Except.ok resFRE803Biz ∧
    evaluateRule "fre-803" evEmpty = Except.ok resFRE803Empty ∧
    ¬ (resFRE803Biz.score < resFRE803Empty.score) ∧
    (evaluateFRE803_6 evHearsayBiz).1 = 85 ∧ (evaluateFRE803_6 evEmpty).1 = 35 :=
  ⟨rfl, rfl, by decide, rfl, rfl⟩

/-- C2 amended: the business-record branch wins, not the hearsay override.
When `regularCourse` and `recordKeeper` are both truthy the FRE 803 raw score
is 85 regardless of hearsay flags; the hearsay-without-exception reset to 20
only applies when the record is not business-tagged, and in that case the
returned score (20) is strictly lower than the baseline's (30). -/
theorem claim_C2_amended :
    (∀ ev : Evidence,
        optBoolTruthy ev.metadata.regularCourse = true →
        optBoolTruthy ev.metadata.recordKeeper = true →
        (evaluateFRE803_6 ev).1 = 85) ∧
    (∀ (t : String) (m : Metadata) (rA rB : ComplianceResult),
        (optBoolTruthy m.regularCourse && optBoolTruthy m.recordKeeper) = false →
        optBoolTruthy m.isHearsay = true →
        optStrTruthy m.hearsayException = false →
        evaluateRule "fre-803" ⟨t, m⟩ = Except.ok rA →
        evaluateRule "fre-803"
          ⟨t, { m with isHearsay := none, hearsayException := none }⟩ = Except.ok rB →
        rA.score < rB.score) := by
  constructor
  · intro ev h1 h2
    simp [evaluateFRE803_6, h1, h2]
  · intro t m rA rB hb hh he hA hB
    have eA : evaluateRule "fre-803" ⟨t, m⟩ =
        Except.ok (mkComplianceResult "fre-803" (evaluateFRE803_6 ⟨t, m⟩) 30) := rfl
    have eB : evaluateRule "fre-803"
          ⟨t, { m with isHearsay := none, hearsayException := none }⟩ =
        Except.ok (mkComplianceResult "fre-803"
          (evaluateFRE803_6 ⟨t, { m with isHearsay := none, hearsayException := none }⟩) 30) :=
      rfl
    rw [eA] at hA; rw [eB] at hB
    simp only [Except.ok.injEq] at hA hB
    subst hA; subst hB
    simp only [mkComplianceResult]
    have e1 : (evaluateFRE803_6 ⟨t, m⟩).1 = 20 := by
      simp [evaluateFRE803_6, hb, hh, he]
    have e2 : (evaluateFRE803_6
        ⟨t, { m with isHearsay := none, hearsayException := none }⟩).1 = 35 := by
      have hnone : optBoolTruthy none = false := rfl
      cases c1 : optBoolTruthy m.regularCourse
      · simp [evaluateFRE803_6, c1, hnone]
      · cases c2 : optBoolTruthy m.recordKeeper
        · simp [evaluateFRE803_6, c1, c2, hnone]
        · rw [c1, c2] at hb; simp at hb
    rw [e1, e2]
    decide

/-- C2 witness: the amended theorem applied to hearsay-only evidence versus
the empty baseline. -/
theorem claim_C2_witness :
    evaluateRule "fre-803" evHearsayOnly = Except.ok resFRE803Hearsay ∧
    evaluateRule "fre-803" evEmpty = Except.ok resFRE803Empty ∧
    resFRE803Hearsay.score < resFRE803Empty.score :=
  ⟨rfl, rfl,
    claim_C2_amended.2 "" { isHearsay := some true } resFRE803Hearsay resFRE803Empty
      rfl rfl rfl rfl rfl⟩

/-! ## Claim C3 — score bounds invariant -/

/-- C3 counterexample: the claim asserts `0 ≤ score` for any caller-supplied
`relevanceScore`.  With `relevanceScore = -100`, FRE 401 computes
`45 + round(-100 × 0.8) = -35 < 0`. -/
theorem claim_C3_counterexample :
    evaluateRule "fre-401" evRelNeg = Except.ok resFRE401Neg ∧
    resFRE401Neg.score < 0 := by
  have hr : jsRound ((-80 : ℚ)) = -80 := jsRound_eq (by norm_num) (by norm_num)
  have h401 : evaluateFRE401 evRelNeg =
      ((-35 : Int), [FindingEntry.text "Evidence relevance questionable"],
        ["Strengthen connection between evidence and case issues"]) := by
    simp only [evaluateFRE401, evRelNeg, jsOr]
    norm_num [hr]
  have e : evaluateRule "fre-401" evRelNeg =
      Except.ok (mkComplianceResult "fre-401" (evaluateFRE401 evRelNeg) 25) := rfl
  rw [e, h401]
  exact ⟨rfl, by decide⟩

/-- C3 amended: for every accepted rule id, `score ≤ maxScore` and `maxScore`
is the sum of the rule's scoring-factor max points, unconditionally; but
`0 ≤ score` only holds if the caller-supplied `relevanceScore` (when present)
is nonnegative — a negative one drives the FRE 401 score below zero. -/
theorem claim_C3_amended :
    ∀ (ruleId : String) (ev : Evidence) (r : ComplianceResult),
      evaluateRule ruleId ev = Except.ok r →
      r.score ≤ r.maxScore ∧
      r.maxScore = criteriaMaxSum (normalizeRuleId ruleId) ∧
      ((∀ v, ev.metadata.relevanceScore = some v → 0 ≤ v) → 0 ≤ r.score) := by
  intro ruleId ev r h
  rw [evaluateRule_shape] at h
  split_ifs at h with h1 h2 h3 h4 h5 h6 <;>
    simp only [Except.ok.injEq] at h
  · subst h
    refine ⟨min_le_right _ _, by rw [h1]; rfl, fun _ => ?_⟩
    have := (raw901_bounds ev).1
    simp only [mkComplianceResult]
    omega
  · subst h
    refine ⟨min_le_right _ _, by rw [h2]; rfl, fun _ => ?_⟩
    have := (raw902_bounds ev).1
    simp only [mkComplianceResult]
    omega
  · subst h
    refine ⟨min_le_right _ _, by rw [h3]; rfl, fun _ => ?_⟩
    have := (raw1002_bounds ev).1
    simp only [mkComplianceResult]
    omega
  · subst h
    refine ⟨min_le_right _ _, by rw [h4]; rfl, fun _ => ?_⟩
    have := (raw803_bounds ev).1
    simp only [mkComplianceResult]
    omega
  · subst h
    refine ⟨min_le_right _ _, by rw [h5]; rfl, fun hrel => ?_⟩
    have := raw401_nonneg ev hrel
    simp only [mkComplianceResult]
    omega
  · subst h
    refine ⟨min_le_right _ _, by rw [h6]; rfl, fun _ => ?_⟩
    have := (raw403_bounds ev).1
    simp only [mkComplianceResult]
    omega

/-- C3 witness: the amended theorem applied to `fre-901` on empty evidence. -/
theorem claim_C3_witness :
    evaluateRule "fre-901" evEmpty = Except.ok resFRE901Empty ∧
    resFRE901Empty.score ≤ resFRE901Empty.maxScore ∧
    resFRE901Empty.maxScore = criteriaMaxSum (normalizeRuleId "fre-901") ∧
    0 ≤ resFRE901Empty.score :=
  ⟨rfl, (claim_C3_amended "fre-901" evEmpty resFRE901Empty rfl).1,
    (claim_C3_amended "fre-901" evEmpty resFRE901Empty rfl).2.1,
    (claim_C3_amended "fre-901" evEmpty resFRE901Empty rfl).2.2
      (fun _v hv => Option.noConfusion hv)⟩

/-! ## Claim C4 — the FRE 901 example scenario -/

/-- C4 counterexample: the claim promises `score > 70` for the
signature-plus-custody scenario, but the returned score is clamped to
`maxScore = 60`, so the result carries `score = 60`, not more than 70
(the raw score is 100 and `compliant` is still true). -/
theorem claim_C4_counterexample :
    evaluateRule "fre-901" evC4 = Except.ok resFRE901C4 ∧
    ¬ (70 < resFRE901C4.score) ∧
    resFRE901C4.compliant = true :=
  ⟨rfl, by decide, rfl⟩

/-- C4 amended: the scenario yields `compliant = true`, strength findings for
both the digital signature and the chain of custody, a raw score of 100 > 70,
and a returned score clamped to `maxScore = 60`. -/
theorem claim_C4_amended :
    evaluateRule "fre-901" evC4 = Except.ok resFRE901C4 ∧
    resFRE901C4.compliant = true ∧
    resFRE901C4.score = 60 ∧ resFRE901C4.maxScore = 60 ∧
    (evaluateFRE901 evC4).1 = 100 ∧ 70 < (evaluateFRE901 evC4).1 ∧
    FindingEntry.text "Digital signature present for authentication"
      ∈ resFRE901C4.findings ∧
    FindingEntry.text "Chain of custody documented" ∈ resFRE901C4.findings :=
  ⟨rfl, rfl, rfl, rfl, rfl, by decide, by decide, by decide⟩

/-! ## Claim C5 — missing-metadata monotonicity -/

/-- C5 counterexample: the claim says the score returned by `evaluateRule` is
strictly higher when `isOriginal = true` (FRE 1001/1002).  Because returned
scores are clamped to `maxScore = 25`, an original (raw 95) and an
unjustified copy (raw 35) both come back with score 25. -/
theorem claim_C5_counterexample :
    evaluateRule "fre-1001" evOriginal = Except.ok resFRE1001Orig ∧
    evaluateRule "fre-1001" evEmpty = Except.ok resFRE1001Empty ∧
    resFRE1001Orig.score = resFRE1001Empty.score ∧
    ¬ (resFRE1001Empty.score < resFRE1001Orig.score) :=
  ⟨rfl, rfl, rfl, by decide⟩

/-- C5 amended: the monotonicity holds for the raw (pre-clamp) evaluator
scores — a digital signature, a non-empty chain of custody, `isOriginal` and
business-record tagging each raise the raw score strictly — but not for the
clamped scores `evaluateRule` returns, which can coincide (both ends clamped
to `maxScore`). -/
theorem claim_C5_amended :
    (∀ (t : String) (m : Metadata) (s : String), s ≠ "" →
      (evaluateFRE901 ⟨t, { m with digitalSignature := none }⟩).1 <
        (evaluateFRE901 ⟨t, { m with digitalSignature := some s }⟩).1) ∧
    (∀ (t : String) (m : Metadata) (l : List CustodyEntry), l ≠ [] →
      (evaluateFRE901 ⟨t, { m with chainOfCustody := none }⟩).1 <
        (evaluateFRE901 ⟨t, { m with chainOfCustody := some l }⟩).1) ∧
    (∀ (t : String) (m : Metadata),
      (evaluateFRE1002 ⟨t, { m with isOriginal := none }⟩).1 <
        (evaluateFRE1002 ⟨t, { m with isOriginal := some true }⟩).1) ∧
    (∀ (t : String) (m : Metadata),
      (evaluateFRE803_6 ⟨t, { m with regularCourse := none, recordKeeper := none }⟩).1 <
        (evaluateFRE803_6
          ⟨t, { m with regularCourse := some true, recordKeeper := some true }⟩).1) := by
  refine ⟨?_, ?_, ?_, ?_⟩
  · intro t m s hs
    have hsome : optStrTruthy (some s) = true := by simp [optStrTruthy, hs]
    have hnone : optStrTruthy none = false := rfl
    simp only [evaluateFRE901]
    simp only [hsome, hnone]
    split_ifs <;> simp_all
  · intro t m l hl
    have hlen : 0 < chainLen (some l) := by
      simp [chainLen, List.length_pos, hl]
    have hlen0 : ¬ (0 < chainLen none) := by simp [chainLen]
    simp only [evaluateFRE901]
    simp only [hlen, hlen0]
    split_ifs <;> simp_all
  · intro t m
    have htrue : optBoolTruthy (some true) = true := rfl
    have hnone : optBoolTruthy none = false := rfl
    simp only [evaluateFRE1002]
    simp only [htrue, hnone]
    split_ifs <;> simp_all
  · intro t m
    have htrue : optBoolTruthy (some true) = true := rfl
    have hnone : optBoolTruthy none = false := rfl
    simp only [evaluateFRE803_6]
    simp only [htrue, hnone]
    split_ifs <;> simp_all

/-- C5 witness: the amended theorem applied at empty base metadata. -/
theorem claim_C5_witness :
    ("sig" : String) ≠ "" ∧
    ([({} : CustodyEntry)] : List CustodyEntry) ≠ [] ∧
    (evaluateFRE901 ⟨"", { ({} : Metadata) with digitalSignature := none }⟩).1 <
      (evaluateFRE901 ⟨"", { ({} : Metadata) with digitalSignature := some "sig" }⟩).1 ∧
    (evaluateFRE901 ⟨"", { ({} : Metadata) with chainOfCustody := none }⟩).1 <
      (evaluateFRE901
        ⟨"", { ({} : Metadata) with chainOfCustody := some [({} : CustodyEntry)] }⟩).1 ∧
    (evaluateFRE1002 ⟨"", { ({} : Metadata) with isOriginal := none }⟩).1 <
      (evaluateFRE1002 ⟨"", { ({} : Metadata) with isOriginal := some true }⟩).1 ∧
    (evaluateFRE803_6
        ⟨"", { ({} : Metadata) with regularCourse := none, recordKeeper := none }⟩).1 <
      (evaluateFRE803_6
        ⟨"", { ({} : Metadata) with regularCourse := some true, recordKeeper := some true }⟩).1 :=
  ⟨by decide, by decide,
    claim_C5_amended.1 "" {} "sig" (by decide),
    claim_C5_amended.2.1 "" {} [({} : CustodyEntry)] (by decide),
    claim_C5_amended.2.2.1 "" {},
    claim_C5_amended.2.2.2 "" {}⟩

/-! ## Claim C6 — alias normalization -/

/-- C6 counterexample: the claim says any two aliases of a canonical rule id
produce the same result.  `evaluateRule` echoes the caller's original
`ruleId` in the result, so `FRE_901` and `fre-901` yield results that differ
in the `ruleId` field. -/
theorem claim_C6_counterexample :
    evaluateRule "FRE_901" evEmpty = Except.ok resFRE901EmptyAlias ∧
    evaluateRule "fre-901" evEmpty = Except.ok resFRE901Empty ∧
    resFRE901EmptyAlias ≠ resFRE901Empty :=
  ⟨rfl, rfl, by decide⟩

/-- C6 amended: aliases normalizing to the same id agree on success/failure
and on every evaluation output — `compliant`, `score`, `maxScore`,
`findings`, `recommendations` — while the `ruleId` field echoes each caller's
original string, so the full records differ exactly there. -/
theorem claim_C6_amended :
    ∀ (id1 id2 : String) (ev : Evidence),
      normalizeRuleId id1 = normalizeRuleId id2 →
      (evaluateRule id1 ev).isOk = (evaluateRule id2 ev).isOk ∧
      (∀ r1 r2, evaluateRule id1 ev = Except.ok r1 → evaluateRule id2 ev = Except.ok r2 →
        r1.ruleId = id1 ∧ r2.ruleId = id2 ∧ r1.compliant = r2.compliant ∧
        r1.score = r2.score ∧ r1.maxScore = r2.maxScore ∧
        r1.findings = r2.findings ∧ r1.recommendations = r2.recommendations) := by
  intro id1 id2 ev heq
  rw [evaluateRule_shape id1, evaluateRule_shape id2, heq]
  split_ifs with h1 h2 h3 h4 h5 h6 <;>
    constructor <;>
      first
        | rfl
        | (intro r1 r2 hr1 hr2
           simp only [Except.ok.injEq] at hr1 hr2
           subst hr1; subst hr2
           simp [mkComplianceResult])
        | (intro r1 r2 hr1 hr2
           exact absurd hr1 (by simp))

/-- C6 witness: the amended theorem applied to `FRE_901` / `fre-901` on empty
evidence. -/
theorem claim_C6_witness :
    normalizeRuleId "FRE_901" = normalizeRuleId "fre-901" ∧
    (evaluateRule "FRE_901" evEmpty).isOk = (evaluateRule "fre-901" evEmpty).isOk ∧
    (resFRE901EmptyAlias.ruleId = "FRE_901" ∧ resFRE901Empty.ruleId = "fre-901" ∧
      resFRE901EmptyAlias.compliant = resFRE901Empty.compliant ∧
      resFRE901EmptyAlias.score = resFRE901Empty.score ∧
      resFRE901EmptyAlias.maxScore = resFRE901Empty.maxScore ∧
      resFRE901EmptyAlias.findings = resFRE901Empty.findings ∧
      resFRE901EmptyAlias.recommendations = resFRE901Empty.recommendations) :=
  ⟨rfl, (claim_C6_amended "FRE_901" "fre-901" evEmpty rfl).1,
    (claim_C6_amended "FRE_901" "fre-901" evEmpty rfl).2
      resFRE901EmptyAlias resFRE901Empty rfl rfl⟩

/-! ## Claim C7 — the unknown-rule error is the only failure -/

/-- C7: `evaluateRule` fails exactly when, after normalization, the catalog
lacks a rule or its criteria; the only failure is the
`Unknown rule: <ruleId>` error (in particular `not-a-real-rule` fails), and
evidence contents never cause a failure. -/
theorem claim_C7 :
    ∀ (ruleId : String) (ev : Evidence),
      ((evaluateRule ruleId ev).isOk = false ↔
        (getRuleById (normalizeRuleId ruleId) = none ∨
          getCriteriaForRule (normalizeRuleId ruleId) = none)) ∧
      ((evaluateRule ruleId ev).isOk = false →
        evaluateRule ruleId ev = Except.error ("Unknown rule: " ++ ruleId)) ∧
      evaluateRule "not-a-real-rule" ev = Except.error "Unknown rule: not-a-real-rule" := by
  intro ruleId ev
  refine ⟨?_, ?_, rfl⟩ <;>
    · unfold evaluateRule
      rcases hR : getRuleById (normalizeRuleId ruleId) with _ | rule <;>
        rcases hC : getCriteriaForRule (normalizeRuleId ruleId) with _ | c <;>
          simp [Except.isOk, Except.toBool, hR, hC]

/-- C7 witness: instantiated at `not-a-real-rule` on empty evidence. -/
theorem claim_C7_witness :
    (evaluateRule "not-a-real-rule" evEmpty).isOk = false ∧
    evaluateRule "not-a-real-rule" evEmpty =
      Except.error "Unknown rule: not-a-real-rule" :=
  ⟨rfl, (claim_C7 "not-a-real-rule" evEmpty).2.1 rfl⟩

/-! ## Claim C8 — `analyzeEvidence` never fails, fixed six-rule order -/

/-- C8: for every evidence record, `analyzeEvidence` succeeds and returns
exactly one result per rule of the fixed applicable set
`fre-901, fre-902, fre-1001, fre-803, fre-401, fre-403`, in that order; the
embedding is a pure function, so repeated calls agree by construction. -/
theorem claim_C8 :
    ∀ ev : Evidence,
      analyzeEvidence ev = Except.ok (sixResults ev) ∧
      (sixResults ev).map ComplianceResult.ruleId = applicableRules ∧
      (sixResults ev).length = 6 ∧
      applicableRules =
        ["fre-901", "fre-902", "fre-1001", "fre-803", "fre-401", "fre-403"] :=
  fun ev => ⟨analyzeEvidence_eq ev, rfl, rfl, rfl⟩

/-! ## Claim C9 — overall compliance aggregate -/

/-- C9 amended: `calculateOverallCompliance` always equals
`round(100 × Σ score / Σ maxScore)` over the six results and never exceeds
100, but it is in `0..100` only when the caller-supplied `relevanceScore`
(when present) is nonnegative; a negative one drives the aggregate below 0.
The `Σ maxScore = 0` guard is dead code: the sum is always 195. -/
theorem claim_C9_amended :
    ∀ (ev : Evidence) (k : Int),
      calculateOverallCompliance ev = Except.ok k →
      k = jsRound (100 * (((sixResults ev).map ComplianceResult.score).sum : ℚ) /
            (((sixResults ev).map ComplianceResult.maxScore).sum : ℚ)) ∧
      k ≤ 100 ∧
      ((∀ v, ev.metadata.relevanceScore = some v → 0 ≤ v) → 0 ≤ k) := by
  intro ev k h
  have hcalc : calculateOverallCompliance ev = Except.ok
      (jsRound ((((sixResults ev).map ComplianceResult.score).sum : ℚ) /
        (((sixResults ev).map ComplianceResult.maxScore).sum : ℚ) * 100)) := rfl
  rw [hcalc] at h
  simp only [Except.ok.injEq] at h
  subst h
  have hM : ((sixResults ev).map ComplianceResult.maxScore).sum = 195 := rfl
  have hS_le : ((sixResults ev).map ComplianceResult.score).sum ≤ 195 := by
    simp only [sixResults, mkComplianceResult, List.map_cons, List.map_nil,
      List.sum_cons, List.sum_nil]
    omega
  have hSq_le : ((((sixResults ev).map ComplianceResult.score).sum : Int) : ℚ) ≤ 195 := by
    exact_mod_cast hS_le
  have h195 : (((195 : Int) : ℚ)) = 195 := by norm_num
  refine ⟨by rw [hM]; congr 1; ring, ?_, ?_⟩
  · rw [hM]
    have hx : ((((sixResults ev).map ComplianceResult.score).sum : Int) : ℚ) /
        ((195 : Int) : ℚ) * 100 ≤ 100 := by
      rw [h195, div_mul_eq_mul_div, div_le_iff₀ (by norm_num : (0:ℚ) < 195)]
      linarith [hSq_le]
    have hlt : jsRound ((((sixResults ev).map ComplianceResult.score).sum : ℚ) /
        ((195 : Int) : ℚ) * 100) < 101 := by
      unfold jsRound
      rw [Int.floor_lt]
      have h101 : (((101 : Int) : ℚ)) = 101 := by norm_num
      rw [h101]
      linarith [hx]
    omega
  · intro hrel
    have h901 := (raw901_bounds ev).1
    have h902 := (raw902_bounds ev).1
    have h1002 := (raw1002_bounds ev).1
    have h803 := (raw803_bounds ev).1
    have h401 := raw401_nonneg ev hrel
    have h403 := (raw403_bounds ev).1
    have hS_nonneg : 0 ≤ ((sixResults ev).map ComplianceResult.score).sum := by
      simp only [sixResults, mkComplianceResult, List.map_cons, List.map_nil,
        List.sum_cons, List.sum_nil]
      omega
    have hSq : (0 : ℚ) ≤ (((sixResults ev).map ComplianceResult.score).sum : ℚ) := by
      exact_mod_cast hS_nonneg
    rw [hM]
    have hx : (0 : ℚ) ≤ ((((sixResults ev).map ComplianceResult.score).sum : Int) : ℚ) /
        ((195 : Int) : ℚ) * 100 := by
      rw [h195]
      exact mul_nonneg (div_nonneg hSq (by norm_num)) (by norm_num)
    unfold jsRound
    exact Int.floor_nonneg.mpr (by linarith)

/-- C9 counterexample: the claim also asserts the result is an integer in
`0..100` for every evidence record.  With `relevanceScore = -10000` the six
scores sum to `-7790` and the aggregate is `round(-7790/195 × 100) = -3995`. -/
theorem claim_C9_counterexample :
    calculateOverallCompliance evRelNegBig = Except.ok (-3995) ∧
    ¬ (0 ≤ (-3995 : Int)) := by
  have hr : jsRound ((-8000 : ℚ)) = -8000 := jsRound_eq (by norm_num) (by norm_num)
  have h401 : (evaluateFRE401 evRelNegBig).1 = -7955 := by
    simp only [evaluateFRE401, evRelNegBig, jsOr]
    norm_num [hr]
  have hT : ((sixResults evRelNegBig).map ComplianceResult.score).sum = -7790 := by
    have e1 : (evaluateFRE901 evRelNegBig).1 = 55 := rfl
    have e2 : (evaluateFRE902 evRelNegBig).1 = 45 := rfl
    have e3 : (evaluateFRE1002 evRelNegBig).1 = 35 := rfl
    have e4 : (evaluateFRE803_6 evRelNegBig).1 = 35 := rfl
    have e6 : (evaluateFRE403 evRelNegBig).1 = 70 := rfl
    simp only [sixResults, mkComplianceResult, List.map_cons, List.map_nil,
      List.sum_cons, List.sum_nil, e1, e2, e3, e4, h401, e6]
    decide
  have hM : ((sixResults evRelNegBig).map ComplianceResult.maxScore).sum = 195 := rfl
  have hcalc : calculateOverallCompliance evRelNegBig = Except.ok
      (jsRound ((((sixResults evRelNegBig).map ComplianceResult.score).sum : ℚ) /
        (((sixResults evRelNegBig).map ComplianceResult.maxScore).sum : ℚ) * 100)) := rfl
  rw [hcalc, hT, hM]
  refine ⟨?_, by norm_num⟩
  congr 1
  apply jsRound_eq <;> push_cast <;> norm_num

/-- C9 witness: the amended theorem applied to empty evidence, whose
aggregate is 97. -/
theorem claim_C9_witness :
    calculateOverallCompliance evEmpty = Except.ok 97 ∧
    (97 : Int) ≤ 100 ∧ (0 : Int) ≤ 97 := by
  have hr : jsRound ((40 : ℚ)) = 40 := jsRound_eq (by norm_num) (by norm_num)
  have h401 : (evaluateFRE401 evEmpty).1 = 85 := by
    simp only [evaluateFRE401, evEmpty, jsOr]
    norm_num [hr]
  have hT : ((sixResults evEmpty).map ComplianceResult.score).sum = 190 := by
    have e1 : (evaluateFRE901 evEmpty).1 = 55 := rfl
    have e2 : (evaluateFRE902 evEmpty).1 = 45 := rfl
    have e3 : (evaluateFRE1002 evEmpty).1 = 35 := rfl
    have e4 : (evaluateFRE803_6 evEmpty).1 = 35 := rfl
    have e6 : (evaluateFRE403 evEmpty).1 = 70 := rfl
    simp only [sixResults, mkComplianceResult, List.map_cons, List.map_nil,
      List.sum_cons, List.sum_nil, e1, e2, e3, e4, h401, e6]
    decide
  have hM : ((sixResults evEmpty).map ComplianceResult.maxScore).sum = 195 := rfl
  have h : calculateOverallCompliance evEmpty = Except.ok 97 := by
    have hcalc : calculateOverallCompliance evEmpty = Except.ok
        (jsRound ((((sixResults evEmpty).map ComplianceResult.score).sum : ℚ) /
          (((sixResults evEmpty).map ComplianceResult.maxScore).sum : ℚ) * 100)) := rfl
    rw [hcalc, hT, hM]
    congr 1
    apply jsRound_eq <;> push_cast <;> norm_num
  exact ⟨h, (claim_C9_amended evEmpty 97 h).2.1,
    (claim_C9_amended evEmpty 97 h).2.2 (fun _v hv => Option.noConfusion hv)⟩

/-! ## Claim C10 — relevance score 0 is indistinguishable from absent -/

/-- C10: in the FRE 401 evaluation, `relevanceScore = 0` is falsy in the
`relevanceScore || 50` default, so it is treated exactly like an absent
score: the whole `evaluateRule` results coincide. -/
theorem claim_C10 :
    ∀ (t : String) (m : Metadata),
      evaluateRule "fre-401" ⟨t, { m with relevanceScore := some 0 }⟩ =
        evaluateRule "fre-401" ⟨t, { m with relevanceScore := none }⟩ := by
  intro t m
  have h2 : evaluateFRE401 ⟨t, { m with relevanceScore := some 0 }⟩ =
      evaluateFRE401 ⟨t, { m with relevanceScore := none }⟩ := by
    simp [evaluateFRE401, jsOr]
  have eA : evaluateRule "fre-401" ⟨t, { m with relevanceScore := some 0 }⟩ =
      Except.ok (mkComplianceResult "fre-401"
        (evaluateFRE401 ⟨t, { m with relevanceScore := some 0 }⟩) 25) := rfl
  have eB : evaluateRule "fre-401" ⟨t, { m with relevanceScore := none }⟩ =
      Except.ok (mkComplianceResult "fre-401"
        (evaluateFRE401 ⟨t, { m with relevanceScore := none }⟩) 25) := rfl
  rw [eA, eB, h2]

end ProofStack
